import Mathlib

/-!
Shallow embedding of the call-accounting subsystem of the eoddata client
(`src/eoddata/accounting.py`, with the accounting section of
`src/eoddata/client.py`), together with theorems settling the claims about
its specification.

Modelling conventions:
* Python `time.time()` / `datetime.now()` values are modelled as a `Nat`
  parameter `now` threaded into each method that reads the clock.
* The tracker's `self.data` list of per-key dicts is a `List KeyData`; each
  per-key dict holds the fixed entries `api_key_masked` and `global` plus one
  entry per operation id, in insertion order, so the operation entries are an
  association list `List (String × OperationData)` in insertion order.
* Python exceptions raised by a modelled function are returned explicitly
  (`CheckResult` for `check_quota`, a `Bool`/`Option` flag for the others).
-/

/-- The three counters kept at both the operation and key-aggregate level
(`total_calls`, `calls_60s`, `calls_24h` in `accounting.py`). -/
structure Totals where
  total_calls : Nat
  calls_60s : Nat
  calls_24h : Nat
deriving DecidableEq

/-- All-zero counters, the initial value used throughout `accounting.py`. -/
def Totals.zero : Totals := ⟨0, 0, 0⟩

/-- Pointwise sum of counters (used only to state the aggregate invariant). -/
def Totals.add (a b : Totals) : Totals :=
  ⟨a.total_calls + b.total_calls, a.calls_60s + b.calls_60s, a.calls_24h + b.calls_24h⟩

/-- Adding one to every counter, exactly what one `increment_call` does to a
counter block (`accounting.py` lines 158-160 and 166-168). -/
def Totals.bump (t : Totals) : Totals :=
  ⟨t.total_calls + 1, t.calls_60s + 1, t.calls_24h + 1⟩

/-- Quota configuration block stored inside every operation entry
(`accounting.py` lines 146-150): `total`, `calls_60s`, `calls_24h`;
a value of 0 is skipped by `check_quota`. -/
structure Quotas where
  total : Nat
  calls_60s : Nat
  calls_24h : Nat
deriving DecidableEq

/-- One operation entry of a per-key dict: counters, metadata timestamps,
status flags and the quota block (`accounting.py` lines 130-151). -/
structure OperationData where
  totals : Totals
  started_at : Nat
  last_updated : Nat
  counting_enabled : Bool
  quotas_enabled : Bool
  quotas : Quotas
deriving DecidableEq

/-- One element of `self.data`: the masked key, the `global` aggregate block
and the operation entries in insertion order. -/
structure KeyData where
  api_key_masked : String
  global_totals : Totals
  ops : List (String × OperationData)
deriving DecidableEq

/-- The `AccountingTracker` state: `self.data`, `self._is_running`,
`self._last_cleanup_time` (`accounting.py` lines 53-57). -/
structure AccountingTracker where
  data : List KeyData
  is_running : Bool
  last_cleanup_time : Option Nat
deriving DecidableEq

/-- Freshly constructed tracker (`AccountingTracker.__init__`). -/
def AccountingTracker.init : AccountingTracker :=
  { data := [], is_running := false, last_cleanup_time := none }

/-- Method `start` (`accounting.py` line 59). -/
def start (t : AccountingTracker) : AccountingTracker :=
  { t with is_running := true }

/-- Method `stop` (`accounting.py` line 65). -/
def stop (t : AccountingTracker) : AccountingTracker :=
  { t with is_running := false }

/-- Method `_mask_api_key` (`accounting.py` lines 116-120): keys of length at
most 8 are returned unchanged, longer keys keep the first and last 4
characters around the marker `"****"`. -/
def mask_api_key (api_key : String) : String :=
  if api_key.length ≤ 8 then api_key
  else api_key.take 4 ++ "****" ++ api_key.takeRight 4

/-- Membership test of the masked-key lookup loop in `_get_api_key_data`
(`accounting.py` lines 100-102): entries are matched by MASKED key. -/
def hasKey (data : List KeyData) (m : String) : Bool :=
  data.any (fun kd => kd.api_key_masked == m)

/-- The fresh per-key dict created by `_get_api_key_data`
(`accounting.py` lines 105-112): masked key, zeroed `global`, no operations. -/
def newKeyData (m : String) : KeyData :=
  { api_key_masked := m, global_totals := Totals.zero, ops := [] }

/-- The creation side effect of `_get_api_key_data`: append a fresh entry when
no entry with the given masked key exists. -/
def ensureKey (data : List KeyData) (m : String) : List KeyData :=
  if hasKey data m then data else data ++ [newKeyData m]

/-- The lookup performed by `_get_api_key_data`: first entry whose
`api_key_masked` equals the given masked key. -/
def findKey (data : List KeyData) (m : String) : Option KeyData :=
  data.find? (fun kd => kd.api_key_masked == m)

/-- Mutation through the reference returned by `_get_api_key_data`: apply `f`
to the first entry whose masked key is `m`, keep everything else. -/
def updateKey (data : List KeyData) (m : String) (f : KeyData → KeyData) : List KeyData :=
  match data with
  | [] => []
  | kd :: rest =>
      if kd.api_key_masked == m then f kd :: rest
      else kd :: updateKey rest m f

/-- Test whether an operation id already has an entry
(`accounting.py` line 130). -/
def hasOp (ops : List (String × OperationData)) (opId : String) : Bool :=
  ops.any (fun p => p.1 == opId)

/-- Apply `f` to the entry of `opId` (first occurrence), keep the rest. -/
def updateOp (ops : List (String × OperationData)) (opId : String)
    (f : OperationData → OperationData) : List (String × OperationData) :=
  match ops with
  | [] => []
  | p :: rest =>
      if p.1 == opId then (p.1, f p.2) :: rest
      else p :: updateOp rest opId f

/-- The fresh operation entry built on first increment of an operation
(`accounting.py` lines 131-151). -/
def initOperationData (now : Nat) : OperationData :=
  { totals := Totals.zero, started_at := now, last_updated := now,
    counting_enabled := true, quotas_enabled := false,
    quotas := { total := 0, calls_60s := 0, calls_24h := 0 } }

/-- Method `_cleanup_old_data` (`accounting.py` lines 244-250). Its docstring
says it removes data outside the 24h window, but the body only refreshes
`_last_cleanup_time` (the source comments: in a real implementation this
would clean up old entries; for now we just update the timestamp). No
counter is ever decreased. -/
def cleanup_old_data (lastCleanup : Option Nat) (now : Nat) : Option Nat :=
  match lastCleanup with
  | none => some now
  | some last => if now - last > 3600 then some now else some last

/-- The per-key body of `increment_call` (`accounting.py` lines 129-168):
create the operation entry if absent, add 1 to all three operation counters,
refresh `last_updated`, then add 1 to all three `global` counters. -/
def incrementKeyData (operation_id : String) (now : Nat) (kd : KeyData) : KeyData :=
  let kd1 := if hasOp kd.ops operation_id then kd
             else { kd with ops := kd.ops ++ [(operation_id, initOperationData now)] }
  let kd2 := { kd1 with ops := updateOp kd1.ops operation_id (fun od =>
                 { od with totals := od.totals.bump, last_updated := now }) }
  { kd2 with global_totals := kd2.global_totals.bump }

/-- Method `increment_call` (`accounting.py` lines 122-174): no-op while
stopped; otherwise resolve/create the per-key entry, apply the per-key body
to it, then run the cleanup stub. -/
def increment_call (t : AccountingTracker) (api_key operation_id : String) (now : Nat) :
    AccountingTracker :=
  if t.is_running = false then t
  else
    let m := mask_api_key api_key
    { t with data := updateKey (ensureKey t.data m) m (incrementKeyData operation_id now),
             last_cleanup_time := cleanup_old_data t.last_cleanup_time now }

/-- Method `enable_quotas` (`accounting.py` lines 176-193): resolve/create the
per-key entry, then set the quota block and the `quotas_enabled` flag on
every operation entry that exists at call time. Runs regardless of the
running flag. -/
def enable_quotas (t : AccountingTracker) (api_key : String)
    (total calls_60s calls_24h : Nat) : AccountingTracker :=
  let m := mask_api_key api_key
  let data1 := ensureKey t.data m
  let data2 := updateKey data1 m (fun kd =>
    { kd with ops := kd.ops.map (fun p =>
        (p.1, { p.2 with
                  quotas := { total := total, calls_60s := calls_60s, calls_24h := calls_24h },
                  quotas_enabled := true })) })
  { t with data := data2 }

/-- Kind of the limit named by an `OutOfQuotaError` (`quota_type` field). -/
inductive QuotaType where
  | total
  | calls_60s
  | calls_24h
deriving DecidableEq

/-- Outcome of `check_quota`: normal return, or an `OutOfQuotaError` carrying
the limit kind, the current aggregate count and the configured limit. -/
inductive CheckResult where
  | allowed
  | denied (quota_type : QuotaType) (current : Nat) (limit : Nat)
deriving DecidableEq

/-- The loop at `accounting.py` lines 209-214: quota checking is considered
enabled when ANY operation entry has `quotas_enabled` set. -/
def anyQuotasEnabled (kd : KeyData) : Bool :=
  kd.ops.any (fun p => p.2.quotas_enabled)

/-- The loop at `accounting.py` lines 220-224: the quota block used for the
check is the one of the FIRST operation entry; with no operation entries the
Python code keeps the empty dict, whose `.get(_, 0)` reads are all 0. -/
def firstOpQuotas (kd : KeyData) : Quotas :=
  match kd.ops with
  | [] => { total := 0, calls_60s := 0, calls_24h := 0 }
  | p :: _ => p.2.quotas

/-- The three quota comparisons of `check_quota` (`accounting.py` lines
226-242): each limit is considered only when positive, the comparison is
inclusive (`count >= limit`), in the order total, 60s, 24h, against the
per-key `global` aggregate. -/
def evalQuotas (g : Totals) (q : Quotas) : CheckResult :=
  if 0 < q.total && q.total ≤ g.total_calls then
    .denied .total g.total_calls q.total
  else if 0 < q.calls_60s && q.calls_60s ≤ g.calls_60s then
    .denied .calls_60s g.calls_60s q.calls_60s
  else if 0 < q.calls_24h && q.calls_24h ≤ g.calls_24h then
    .denied .calls_24h g.calls_24h q.calls_24h
  else .allowed

/-- Method `check_quota` (`accounting.py` lines 195-242): returns quietly when
stopped; resolves (and possibly creates) the per-key entry; returns quietly
when no operation entry has quotas enabled; otherwise evaluates the first
operation entry's quota block against the `global` aggregate. The returned
state records the creation side effect of `_get_api_key_data`. -/
def check_quota (t : AccountingTracker) (api_key : String) :
    AccountingTracker × CheckResult :=
  if t.is_running = false then (t, .allowed)
  else
    let m := mask_api_key api_key
    let data1 := ensureKey t.data m
    let t1 : AccountingTracker := { t with data := data1 }
    match findKey data1 m with
    | none => (t1, .allowed)
    | some kd =>
        if anyQuotasEnabled kd = false then (t1, .allowed)
        else (t1, evalQuotas kd.global_totals (firstOpQuotas kd))

/-- Method `reset` (`accounting.py` lines 71-95): zero every operation's
counters and every key's `global` block, refresh `last_updated`, and leave
the quota blocks, status flags and running flag untouched. -/
def reset (t : AccountingTracker) (now : Nat) : AccountingTracker :=
  { t with data := t.data.map (fun kd =>
      { kd with
          ops := kd.ops.map (fun p =>
            (p.1, { p.2 with totals := Totals.zero, last_updated := now })),
          global_totals := Totals.zero }) }

/-- Input cases of `load_from_file` (`accounting.py` lines 271-286): the file
may be missing (`FileNotFoundError`), unparseable (`json.JSONDecodeError`),
or parse to a data list. -/
inductive LoadInput where
  | fileNotFound
  | jsonDecodeError
  | parsed (d : List KeyData)

/-- Method `load_from_file` (`accounting.py` lines 271-286). The `Bool`
component records whether an exception escapes to the caller: both error
branches are caught and only logged in debug mode, so it is always `false`;
a parsed document replaces `self.data` wholesale. -/
def load_from_file (t : AccountingTracker) (inp : LoadInput) :
    AccountingTracker × Bool :=
  match inp with
  | .fileNotFound => (t, false)
  | .jsonDecodeError => (t, false)
  | .parsed d => ({ t with data := d }, false)

/-- Exceptions that can arise inside the accounting block of
`EODDataClient._request` (`client.py` lines 162-172): the `TypeError` from
calling the one-parameter method `check_quota` with two positional arguments
(`client.py` line 167 against `accounting.py` line 195), and the
`OutOfQuotaError` the quota check would raise. -/
inductive PyException where
  | typeError
  | outOfQuotaError (quota_type : QuotaType) (current : Nat) (limit : Nat)
deriving DecidableEq

/-- The Python test `isinstance(e, Exception)` for the exceptions above; both
are subclasses of `Exception`, so it is always `true`. -/
def isinstanceException (_e : PyException) : Bool := true

/-- The `except Exception as e` handler at `client.py` lines 168-172: it
re-raises only when `not isinstance(e, Exception)` holds, so it returns the
exception to be propagated (`some e`) in that case and swallows it (`none`)
otherwise. -/
def exceptHandler (e : PyException) : Option PyException :=
  if isinstanceException e = false then some e else none

/-- The `try` body at `client.py` lines 164-167: `increment_call` runs, then
`self.accounting.check_quota(self.api_key, operation_id)` passes two
positional arguments to a method declared with one (`accounting.py` line
195), which raises `TypeError` before any quota comparison runs. -/
def clientTryBody (t : AccountingTracker) (api_key operation_id : String) (now : Nat) :
    AccountingTracker × Option PyException :=
  (increment_call t api_key operation_id now, some PyException.typeError)

/-- Outcome of the accounting phase of `EODDataClient._request`: the tracker
state afterwards, the exception propagated to the caller (if any), and
whether control reaches the outbound HTTP request at `client.py` line 194. -/
structure RequestOutcome where
  tracker : AccountingTracker
  raised : Option PyException
  httpRequestMade : Bool
deriving DecidableEq

/-- The accounting block of `EODDataClient._request` (`client.py` lines
162-172) for a client constructed with an accounting tracker: run the try
body, feed any exception to the handler, and fall through to the HTTP
request whenever nothing propagates. -/
def clientAccountingPhase (t : AccountingTracker) (api_key operation_id : String)
    (now : Nat) : RequestOutcome :=
  match clientTryBody t api_key operation_id now with
  | (t1, some e) =>
      match exceptHandler e with
      | some e1 => { tracker := t1, raised := some e1, httpRequestMade := false }
      | none => { tracker := t1, raised := none, httpRequestMade := true }
  | (t1, none) => { tracker := t1, raised := none, httpRequestMade := true }

/-- Observation: the stored 60-second counter for a (key, operation) pair,
as `summary` reports it (`accounting.py` line 317); 0 when the key or the
operation has no entry. -/
def op_calls_60s (t : AccountingTracker) (api_key operation_id : String) : Nat :=
  match findKey t.data (mask_api_key api_key) with
  | none => 0
  | some kd =>
      match kd.ops.find? (fun p => p.1 == operation_id) with
      | none => 0
      | some p => p.2.totals.calls_60s

/-- Observation: the stored `global` lifetime counter for a key, as `summary`
reports it (`accounting.py` line 303); 0 when the key has no entry. -/
def global_total_calls (t : AccountingTracker) (api_key : String) : Nat :=
  match findKey t.data (mask_api_key api_key) with
  | none => 0
  | some kd => kd.global_totals.total_calls

/-- The window count the specification demands (its `count_since`): the number
of recorded event times `ti` with `now - ti ≤ windowSeconds`. Stated from
the spec's words for comparison with the stored counter. -/
def spec_count_since (events : List Nat) (now windowSeconds : Nat) : Nat :=
  (events.filter (fun ti => now - ti ≤ windowSeconds)).length

/-- The limit value a quota block configures for a given limit kind. -/
def quotaLimit (q : Quotas) : QuotaType → Nat
  | .total => q.total
  | .calls_60s => q.calls_60s
  | .calls_24h => q.calls_24h

/-- The aggregate count a `global` block holds for a given limit kind. -/
def currentCount (g : Totals) : QuotaType → Nat
  | .total => g.total_calls
  | .calls_60s => g.calls_60s
  | .calls_24h => g.calls_24h

/-- The fixed evaluation order of `check_quota`. -/
def checkOrder : List QuotaType := [.total, .calls_60s, .calls_24h]

/-- The first limit kind, in check order, whose aggregate count has reached
its configured value (inclusive comparison). -/
def firstViolated (g : Totals) (q : Quotas) : Option QuotaType :=
  checkOrder.find? (fun k => quotaLimit q k ≤ currentCount g k)

/-- Per-key view of the quota configuration: operation ids with their quota
blocks and enabled flags (what C4 requires `reset` to preserve). -/
def opQuotaView (p : String × OperationData) : String × Quotas × Bool :=
  (p.1, p.2.quotas, p.2.quotas_enabled)

/-- Tracker-wide view of the quota configuration. -/
def quotaView (t : AccountingTracker) : List (String × List (String × Quotas × Bool)) :=
  t.data.map (fun kd => (kd.api_key_masked, kd.ops.map opQuotaView))

/-- Decidable test that every counter in the tracker is zero. -/
def allCountersZero (t : AccountingTracker) : Bool :=
  t.data.all (fun kd =>
    kd.global_totals == Totals.zero && kd.ops.all (fun p => p.2.totals == Totals.zero))

/-- Sum of the counter blocks of a key's operation entries. -/
def sumOpTotals (ops : List (String × OperationData)) : Totals :=
  ops.foldr (fun p acc => Totals.add p.2.totals acc) Totals.zero

/-- Decidable aggregate-consistency invariant: every key's `global` block
equals the sum of its operation entries' counter blocks. -/
def aggregateConsistent (t : AccountingTracker) : Bool :=
  t.data.all (fun kd => kd.global_totals == sumOpTotals kd.ops)

/-- Running tracker in which key "KEY" has one recorded call for operation
"op" and an enabled quota of total=1, so its quota is already exhausted. -/
def tQuotaExceeded : AccountingTracker :=
  enable_quotas (increment_call (start AccountingTracker.init) "KEY" "op" 0) "KEY" 1 0 0

/-- The same tracker after `stop`: quota still configured, session stopped. -/
def tStopped : AccountingTracker := stop tQuotaExceeded

/-- C1: the claim states that the 60-second window count equals the number of
recorded events with `now - ti ≤ 60` and that events expire automatically.
The code keeps a counter that is only ever incremented (`_cleanup_old_data`
is a stub), so after two increments at times 0 and 5 the stored 60s count is
2 at every later reading instant, while the specified `count_since` at
`now = 100` is 0: both events are older than 60 seconds. -/
theorem c1_window_counts_never_expire :
    op_calls_60s (increment_call (increment_call (start AccountingTracker.init)
        "APIKEY" "get_quotes" 0) "APIKEY" "get_quotes" 5) "APIKEY" "get_quotes" = 2 ∧
    spec_count_since [0, 5] 100 60 = 0 := by decide

/-- C2: the claim states that with accounting enabled and the quota already
exceeded, the before-request sequence raises the quota error to the caller
and the HTTP request is not made. In the code the `except` guard
`not isinstance(e, Exception)` is never true, so every accounting exception
(the arity `TypeError`, and an `OutOfQuotaError` alike) is swallowed, nothing
propagates, and control falls through to the outbound request. -/
theorem c2_quota_error_swallowed (t : AccountingTracker) (api_key operation_id : String)
    (now : Nat) (_h : (check_quota t api_key).2 ≠ CheckResult.allowed) :
    (clientAccountingPhase t api_key operation_id now).raised = none ∧
    (clientAccountingPhase t api_key operation_id now).httpRequestMade = true ∧
    ∀ e : PyException, exceptHandler e = none :=
  ⟨rfl, rfl, fun _ => rfl⟩

/-- Witness for C2 at the concrete exhausted-quota tracker. -/
theorem c2_quota_error_swallowed_witness :
    (clientAccountingPhase tQuotaExceeded "KEY" "op" 5).raised = none ∧
    (clientAccountingPhase tQuotaExceeded "KEY" "op" 5).httpRequestMade = true ∧
    ∀ e : PyException, exceptHandler e = none :=
  c2_quota_error_swallowed tQuotaExceeded "KEY" "op" 5 (by decide)

/-- C5: while the session is stopped, `increment_call` changes nothing (also
when iterated 1000 times) and `check_quota` returns without raising, whatever
quotas are configured. -/
theorem c5_stopped_is_noop (t : AccountingTracker) (h : t.is_running = false)
    (api_key operation_id : String) (now : Nat) (n : Nat) :
    increment_call t api_key operation_id now = t ∧
    (fun s => increment_call s api_key operation_id now)^[n] t = t ∧
    (check_quota t api_key).2 = CheckResult.allowed := by
  have hinc : increment_call t api_key operation_id now = t := by
    simp [increment_call, h]
  refine ⟨hinc, ?_, ?_⟩
  · induction n with
    | zero => rfl
    | succ k ih => rw [Function.iterate_succ_apply, hinc, ih]
  · simp [check_quota, h]

/-- Witness for C5: a stopped tracker holding an active quota of total=1 with
one call already recorded; 1000 further increments leave it unchanged and the
quota check still allows. -/
theorem c5_stopped_is_noop_witness :
    increment_call tStopped "KEY" "op" 7 = tStopped ∧
    (fun s => increment_call s "KEY" "op" 7)^[1000] tStopped = tStopped ∧
    (check_quota tStopped "KEY").2 = CheckResult.allowed :=
  c5_stopped_is_noop tStopped (by decide) "KEY" "op" 7 1000

/-- C6 counterexample: the claim states that malformed or missing persistence
input makes import raise a `PersistenceError`. On a missing file or invalid
JSON, `load_from_file` catches the exception and returns normally (the raised
component is `false`), leaving the state unchanged — no error of any kind
reaches the caller. -/
theorem c6_counterexample :
    (load_from_file (start AccountingTracker.init) LoadInput.jsonDecodeError).2 = false ∧
    (load_from_file (start AccountingTracker.init) LoadInput.fileNotFound).2 = false ∧
    (load_from_file (start AccountingTracker.init) LoadInput.jsonDecodeError).1
      = start AccountingTracker.init :=
  ⟨rfl, rfl, rfl⟩

/-- C6 as amended: for every malformed or missing persistence input, import
raises nothing (it is silently ignored, at most logged in debug mode) and
leaves the prior in-memory accounting state completely unchanged. -/
theorem c6_amended_silent_failure (t : AccountingTracker) (inp : LoadInput)
    (h : inp = LoadInput.fileNotFound ∨ inp = LoadInput.jsonDecodeError) :
    load_from_file t inp = (t, false) := by
  rcases h with h | h <;> subst h <;> rfl

/-- Witness for the amended C6 at a concrete tracker and malformed input. -/
theorem c6_amended_silent_failure_witness :
    load_from_file tQuotaExceeded LoadInput.jsonDecodeError = (tQuotaExceeded, false) :=
  c6_amended_silent_failure tQuotaExceeded LoadInput.jsonDecodeError (Or.inr rfl)

/-- C7: masking returns a key of length at most 8 unchanged, and otherwise the
first 4 characters, the marker "****", and the last 4 characters; in
particular the two examples of the claim. -/
theorem c7_mask_api_key (k : String) (hle : k.length ≤ 8)
    (k2 : String) (hgt : 8 < k2.length) :
    mask_api_key k = k ∧
    mask_api_key k2 = k2.take 4 ++ "****" ++ k2.takeRight 4 ∧
    mask_api_key "ABCD1234EFGH" = "ABCD****EFGH" ∧
    mask_api_key "short" = "short" := by
  refine ⟨?_, ?_, by decide, by decide⟩
  · simp [mask_api_key, hle]
  · simp [mask_api_key, Nat.not_le.mpr hgt]

/-- Witness for C7 at the claim's two example keys. -/
theorem c7_mask_api_key_witness :
    mask_api_key "short" = "short" ∧
    mask_api_key "ABCD1234EFGH"
      = "ABCD1234EFGH".take 4 ++ "****" ++ "ABCD1234EFGH".takeRight 4 ∧
    mask_api_key "ABCD1234EFGH" = "ABCD****EFGH" ∧
    mask_api_key "short" = "short" :=
  c7_mask_api_key "short" (by decide) "ABCD1234EFGH" (by decide)

/-- C8: the claim states that accounting state is partitioned by RAW-key
equality, so increments for one key never change what another key observes.
The code partitions by the masked form: the distinct raw keys
"AAAA0000ZZZZ" and "AAAA1111ZZZZ" mask identically, and one increment
recorded for the first raises the lifetime counter observed for the second
from 0 to 1. -/
theorem c8_mask_collision_shares_state :
    "AAAA0000ZZZZ" ≠ "AAAA1111ZZZZ" ∧
    mask_api_key "AAAA0000ZZZZ" = mask_api_key "AAAA1111ZZZZ" ∧
    global_total_calls (start AccountingTracker.init) "AAAA1111ZZZZ" = 0 ∧
    global_total_calls (increment_call (start AccountingTracker.init)
        "AAAA0000ZZZZ" "op" 0) "AAAA1111ZZZZ" = 1 := by decide

/-- C9: the claim states that enabling a quota for a previously unseen key
marks quota checking enabled for the key as a whole, covering operations
first seen after the enable call. The code sets the flag only on operation
entries existing at enable time; for a fresh key there are none, so after
`enable_quotas` with total=1 and two increments of a new operation the
aggregate count is 2 yet the quota check still allows. -/
theorem c9_enable_before_first_increment_ineffective :
    (check_quota (increment_call (increment_call
        (enable_quotas (start AccountingTracker.init) "FRESHKEY1" 1 0 0)
        "FRESHKEY1" "op" 0) "FRESHKEY1" "op" 1) "FRESHKEY1").2 = CheckResult.allowed ∧
    global_total_calls (increment_call (increment_call
        (enable_quotas (start AccountingTracker.init) "FRESHKEY1" 1 0 0)
        "FRESHKEY1" "op" 0) "FRESHKEY1" "op" 1) "FRESHKEY1" = 2 := by decide

theorem firstViolated_eq (g : Totals) (q : Quotas) :
    firstViolated g q =
      if q.total ≤ g.total_calls then some QuotaType.total
      else if q.calls_60s ≤ g.calls_60s then some QuotaType.calls_60s
      else if q.calls_24h ≤ g.calls_24h then some QuotaType.calls_24h
      else none := by
  simp only [firstViolated, checkOrder]
  by_cases ha : q.total ≤ g.total_calls <;>
    by_cases hb : q.calls_60s ≤ g.calls_60s <;>
      by_cases hc : q.calls_24h ≤ g.calls_24h <;>
        simp [List.find?, quotaLimit, currentCount, ha, hb, hc]

theorem evalQuotas_eq_firstViolated (g : Totals) (q : Quotas)
    (h1 : 0 < q.total) (h2 : 0 < q.calls_60s) (h3 : 0 < q.calls_24h) :
    evalQuotas g q =
      match firstViolated g q with
      | none => CheckResult.allowed
      | some k => CheckResult.denied k (currentCount g k) (quotaLimit q k) := by
  rw [firstViolated_eq]
  by_cases ha : q.total ≤ g.total_calls <;>
    by_cases hb : q.calls_60s ≤ g.calls_60s <;>
      by_cases hc : q.calls_24h ≤ g.calls_24h <;>
        simp [evalQuotas, quotaLimit, currentCount, h1, h2, h3, ha, hb, hc]

/-- C3: for a running tracker and a key whose entry has quotas enabled with
all three limits configured positive, `check_quota` returns the first limit
kind in the fixed order total, 60-second, 24-hour whose per-key aggregate
count has reached the configured value (inclusive comparison), reporting
that kind with the current aggregate count and the limit; in particular,
whenever the total limit is reached the reported limit is `total`,
regardless of the other two. -/
theorem c3_quota_check_order (t : AccountingTracker) (api_key : String) (kd : KeyData)
    (hrun : t.is_running = true)
    (hfind : findKey (ensureKey t.data (mask_api_key api_key)) (mask_api_key api_key)
               = some kd)
    (hen : anyQuotasEnabled kd = true)
    (h1 : 0 < (firstOpQuotas kd).total) (h2 : 0 < (firstOpQuotas kd).calls_60s)
    (h3 : 0 < (firstOpQuotas kd).calls_24h) :
    ((check_quota t api_key).2 =
      match firstViolated kd.global_totals (firstOpQuotas kd) with
      | none => CheckResult.allowed
      | some k => CheckResult.denied k (currentCount kd.global_totals k)
                    (quotaLimit (firstOpQuotas kd) k)) ∧
    ((firstOpQuotas kd).total ≤ kd.global_totals.total_calls →
      (check_quota t api_key).2 = CheckResult.denied QuotaType.total
        kd.global_totals.total_calls (firstOpQuotas kd).total) := by
  have hq : (check_quota t api_key).2 = evalQuotas kd.global_totals (firstOpQuotas kd) := by
    simp [check_quota, hrun, hfind, hen]
  constructor
  · rw [hq]
    exact evalQuotas_eq_firstViolated _ _ h1 h2 h3
  · intro hle
    rw [hq, evalQuotas_eq_firstViolated _ _ h1 h2 h3, firstViolated_eq]
    simp [hle, currentCount, quotaLimit]

/-- Running tracker with one call recorded for key "KEY" and all three limits
of its quota configured to 1, so every limit is reached simultaneously. -/
def tAllLimitsReached : AccountingTracker :=
  enable_quotas (increment_call (start AccountingTracker.init) "KEY" "op" 0) "KEY" 1 1 1

/-- The per-key entry of "KEY" inside `tAllLimitsReached`. -/
def kdAllLimitsReached : KeyData :=
  { api_key_masked := "KEY", global_totals := ⟨1, 1, 1⟩,
    ops := [("op", { totals := ⟨1, 1, 1⟩, started_at := 0, last_updated := 0,
                     counting_enabled := true, quotas_enabled := true,
                     quotas := ⟨1, 1, 1⟩ })] }

/-- Witness for C3 where all three limits are reached at once: the reported
limit is `total`. -/
theorem c3_quota_check_order_witness :
    ((check_quota tAllLimitsReached "KEY").2 =
      match firstViolated kdAllLimitsReached.global_totals (firstOpQuotas kdAllLimitsReached) with
      | none => CheckResult.allowed
      | some k => CheckResult.denied k (currentCount kdAllLimitsReached.global_totals k)
                    (quotaLimit (firstOpQuotas kdAllLimitsReached) k)) ∧
    ((firstOpQuotas kdAllLimitsReached).total
        ≤ kdAllLimitsReached.global_totals.total_calls →
      (check_quota tAllLimitsReached "KEY").2 = CheckResult.denied QuotaType.total
        kdAllLimitsReached.global_totals.total_calls
        (firstOpQuotas kdAllLimitsReached).total) :=
  c3_quota_check_order tAllLimitsReached "KEY" kdAllLimitsReached (by decide) (by decide)
    (by decide) (by decide) (by decide) (by decide)

theorem allCountersZero_reset (t : AccountingTracker) (now : Nat) :
    allCountersZero (reset t now) = true := by
  simp only [allCountersZero, reset, List.all_map, List.all_eq_true, Function.comp]
  intro kd _
  simp [List.all_map, Function.comp]

theorem quotaView_reset (t : AccountingTracker) (now : Nat) :
    quotaView (reset t now) = quotaView t := by
  simp only [quotaView, reset, List.map_map]
  refine List.map_congr_left (fun kd _ => ?_)
  simp only [Function.comp, List.map_map]
  rfl

theorem mem_ensureKey (data : List KeyData) (m : String) (kd : KeyData)
    (h : kd ∈ ensureKey data m) : kd ∈ data ∨ kd = newKeyData m := by
  unfold ensureKey at h
  by_cases hk : hasKey data m
  · simp [hk] at h
    exact Or.inl h
  · simp [hk] at h
    exact h

theorem reset_mem_global_zero (t : AccountingTracker) (now : Nat) (kd : KeyData)
    (h : kd ∈ (reset t now).data) : kd.global_totals = Totals.zero := by
  simp only [reset, List.mem_map] at h
  obtain ⟨kd0, _, rfl⟩ := h
  rfl

theorem evalQuotas_zero (q : Quotas) : evalQuotas Totals.zero q = CheckResult.allowed := by
  unfold evalQuotas
  split
  · rename_i h
    simp [Totals.zero] at h
    omega
  · split
    · rename_i h
      simp [Totals.zero] at h
      omega
    · split
      · rename_i h
        simp [Totals.zero] at h
        omega
      · rfl

theorem check_quota_allowed_after_reset (t : AccountingTracker) (now : Nat)
    (api_key : String) :
    (check_quota (reset t now) api_key).2 = CheckResult.allowed := by
  rcases hb : (reset t now).is_running with _ | _
  · simp [check_quota, hb]
  · rcases hf : findKey (ensureKey (reset t now).data (mask_api_key api_key))
        (mask_api_key api_key) with _ | kd
    · simp [check_quota, hb, hf]
    · have hmem : kd ∈ ensureKey (reset t now).data (mask_api_key api_key) :=
        List.mem_of_find?_eq_some hf
      have hzero : kd.global_totals = Totals.zero := by
        rcases mem_ensureKey _ _ _ hmem with h | h
        · exact reset_mem_global_zero t now kd h
        · rw [h]
          rfl
      rcases he : anyQuotasEnabled kd with _ | _
      · simp [check_quota, hb, hf, he]
      · simp [check_quota, hb, hf, he, hzero, evalQuotas_zero]

/-- C4: `reset` zeroes every counter (each operation's block and each key's
`global` aggregate) for every key, preserves every operation's quota block
and quota-enabled flag, and the very next quota check returns without
raising for every key — the previously enabled quota values still apply
without a further `enable_quotas` call. -/
theorem c4_reset_zeroes_and_preserves_quotas (t : AccountingTracker) (now : Nat)
    (api_key : String) :
    allCountersZero (reset t now) = true ∧
    quotaView (reset t now) = quotaView t ∧
    (check_quota (reset t now) api_key).2 = CheckResult.allowed :=
  ⟨allCountersZero_reset t now, quotaView_reset t now,
   check_quota_allowed_after_reset t now api_key⟩

theorem Totals.bump_add (a b : Totals) :
    Totals.add (Totals.bump a) b = Totals.bump (Totals.add a b) := by
  simp [Totals.add, Totals.bump]
  omega

theorem Totals.add_bump (a b : Totals) :
    Totals.add a (Totals.bump b) = Totals.bump (Totals.add a b) := by
  simp [Totals.add, Totals.bump]
  omega

theorem sumOpTotals_append_init (ops : List (String × OperationData))
    (opId : String) (now : Nat) :
    sumOpTotals (ops ++ [(opId, initOperationData now)]) = sumOpTotals ops := by
  simp only [sumOpTotals, List.foldr_append]
  rfl

theorem hasOp_append_self (ops : List (String × OperationData)) (opId : String)
    (od : OperationData) : hasOp (ops ++ [(opId, od)]) opId = true := by
  simp [hasOp, List.any_append]

theorem sumOpTotals_updateOp_bump (ops : List (String × OperationData))
    (opId : String) (now : Nat) (h : hasOp ops opId = true) :
    sumOpTotals (updateOp ops opId (fun od =>
        { od with totals := od.totals.bump, last_updated := now }))
      = Totals.bump (sumOpTotals ops) := by
  induction ops with
  | nil => simp [hasOp] at h
  | cons p rest ih =>
    by_cases hp : (p.1 == opId) = true
    · simp only [updateOp, hp, if_pos, sumOpTotals, List.foldr_cons]
      exact Totals.bump_add _ _
    · have h' : hasOp rest opId = true := by
        simp only [hasOp, List.any_cons, hp, Bool.false_or] at h
        exact h
      simp only [updateOp, hp, if_neg, Bool.false_eq_true, not_false_iff, sumOpTotals,
        List.foldr_cons]
      have := ih h'
      simp only [sumOpTotals] at this
      rw [this]
      exact Totals.add_bump _ _

theorem incrementKeyData_consistent (kd : KeyData) (operation_id : String) (now : Nat)
    (h : (kd.global_totals == sumOpTotals kd.ops) = true) :
    ((incrementKeyData operation_id now kd).global_totals
        == sumOpTotals (incrementKeyData operation_id now kd).ops) = true := by
  rw [beq_iff_eq] at h ⊢
  unfold incrementKeyData
  by_cases hop : hasOp kd.ops operation_id = true
  · simp only [hop, if_pos]
    rw [sumOpTotals_updateOp_bump _ _ _ hop, h]
  · simp only [hop, if_neg, Bool.false_eq_true, not_false_iff]
    rw [sumOpTotals_updateOp_bump _ _ _ (hasOp_append_self kd.ops operation_id _),
      sumOpTotals_append_init, h]

theorem all_ensureKey (data : List KeyData) (m : String) (P : KeyData → Bool)
    (h : data.all P = true) (hnew : P (newKeyData m) = true) :
    (ensureKey data m).all P = true := by
  unfold ensureKey
  by_cases hk : hasKey data m <;> simp [hk, h, hnew]

theorem all_updateKey (data : List KeyData) (m : String) (f : KeyData → KeyData)
    (P : KeyData → Bool) (h : data.all P = true)
    (hf : ∀ kd, P kd = true → P (f kd) = true) :
    (updateKey data m f).all P = true := by
  induction data with
  | nil => simp [updateKey]
  | cons kd rest ih =>
    simp only [List.all_cons, Bool.and_eq_true] at h
    by_cases hm : (kd.api_key_masked == m) = true
    · simp [updateKey, hm, hf kd h.1, h.2]
    · simp [updateKey, hm, h.1, ih h.2]

theorem aggregateConsistent_increment (t : AccountingTracker)
    (h : aggregateConsistent t = true) (api_key operation_id : String) (now : Nat) :
    aggregateConsistent (increment_call t api_key operation_id now) = true := by
  unfold increment_call
  by_cases hr : t.is_running = false
  · simp only [hr, if_pos]
    exact h
  · simp only [hr, if_neg, not_false_iff]
    unfold aggregateConsistent at h ⊢
    exact all_updateKey _ _ _ _
      (all_ensureKey _ _ _ h (by rfl))
      (fun kd hkd => incrementKeyData_consistent kd operation_id now hkd)

theorem sumOpTotals_map_zero (ops : List (String × OperationData)) (now : Nat) :
    sumOpTotals (ops.map (fun p =>
        (p.1, { p.2 with totals := Totals.zero, last_updated := now })))
      = Totals.zero := by
  induction ops with
  | nil => rfl
  | cons p rest ih =>
    simp only [List.map_cons, sumOpTotals, List.foldr_cons] at ih ⊢
    rw [ih]
    rfl

theorem aggregateConsistent_reset (t : AccountingTracker) (now : Nat) :
    aggregateConsistent (reset t now) = true := by
  simp only [aggregateConsistent, reset, List.all_map, List.all_eq_true, Function.comp]
  intro kd _
  rw [beq_iff_eq]
  exact (sumOpTotals_map_zero kd.ops now).symm

/-- C10: the aggregate-consistency invariant — every key's `global` block
equals the componentwise sum of its operation entries' counter blocks —
holds for the freshly constructed tracker and is preserved both by
`increment_call` (which adds 1 to the touched operation's counters and 1 to
the aggregate) and by `reset` (which zeroes both sides). -/
theorem c10_aggregate_consistency (t : AccountingTracker)
    (h : aggregateConsistent t = true) (api_key operation_id : String)
    (now now2 : Nat) :
    aggregateConsistent AccountingTracker.init = true ∧
    aggregateConsistent (increment_call t api_key operation_id now) = true ∧
    aggregateConsistent (reset t now2) = true :=
  ⟨rfl, aggregateConsistent_increment t h api_key operation_id now,
   aggregateConsistent_reset t now2⟩

/-- Witness for C10 at the concrete tracker with one recorded call. -/
theorem c10_aggregate_consistency_witness :
    aggregateConsistent AccountingTracker.init = true ∧
    aggregateConsistent (increment_call tQuotaExceeded "KEY" "op2" 30) = true ∧
    aggregateConsistent (reset tQuotaExceeded 40) = true :=
  c10_aggregate_consistency tQuotaExceeded (by decide) "KEY" "op2" 30 40
